import Mathlib

/-!
Shallow embedding of the cloud-report-app client services:
storageService (account persistence), securityCache, AuthService
(token refresh and timer scheduling) and ApiService (cached,
authenticated HTTP requests with a single 401 retry).
-/

namespace CloudReport

/-! ## JSON values
Values as produced by JSON.parse.  Objects are association lists; after
parsing, keys are unique and lookup takes the first binding.  Numbers are
modelled as integers (the payloads relevant here carry no fractional
numbers). -/

inductive JValue where
  | jnull
  | jbool (b : Bool)
  | jnum (n : Int)
  | jstr (s : String)
  | jarr (elems : List JValue)
  | jobj (fields : List (String × JValue))


/-- Property access `v.k`: `none` models JavaScript `undefined`
(missing key, or access on a non-object; arrays and primitives have none
of the properties used by this code). -/
def getField (v : JValue) (k : String) : Option JValue :=
  match v with
  | .jobj fields => (fields.find? (fun p => p.1 == k)).map (fun p => p.2)
  | _ => none

/-- JavaScript truthiness of a defined value. -/
def jsTruthy : JValue → Bool
  | .jnull => false
  | .jbool b => b
  | .jnum n => n != 0
  | .jstr s => s != ""
  | .jarr _ => true
  | .jobj _ => true

/-- JavaScript truthiness where `none` is `undefined` (falsy). -/
def jsTruthyOpt : Option JValue → Bool
  | none => false
  | some v => jsTruthy v

/-- `typeof v === 'object'` (true for null, arrays and objects). -/
def typeofIsObject : JValue → Bool
  | .jnull => true
  | .jarr _ => true
  | .jobj _ => true
  | _ => false

/-- Strict equality `v === 's'` of a possibly-undefined value with a
string literal. -/
def strictEqStr (v : Option JValue) (s : String) : Bool :=
  match v with
  | some (.jstr t) => t == s
  | _ => false

/-- `typeof v.k === 'string'`. -/
def isStringField (v : JValue) (k : String) : Bool :=
  match getField v k with
  | some (.jstr _) => true
  | _ => false

/-! ## storageService (account persistence)

A localStorage slot holds: nothing (`getItem` returns null), a string
that JSON.parse rejects, or a string that parses to a JSON value. -/

inductive StorageSlot where
  | absent
  | malformed
  | val (v : JValue)


/-- The regex test `/^\d{12}$/.test s`: exactly twelve characters,
each a decimal digit. -/
def isAwsAccountId (s : String) : Bool :=
  s.length == 12 && s.data.all Char.isDigit

/-- The per-element validation predicate inside `getAccounts`:
`account && typeof account === 'object' && typeof account.id === 'string'
&& typeof account.name === 'string' && typeof account.accountId === 'string'
&& /^\d{12}$/.test(account.accountId)`. -/
def validAccount (account : JValue) : Bool :=
  jsTruthy account &&
  typeofIsObject account &&
  isStringField account "id" &&
  isStringField account "name" &&
  (match getField account "accountId" with
   | some (.jstr s) => isAwsAccountId s
   | _ => false)

/-- `storageService.getAccounts`: absent key and JSON.parse failure
(caught) both yield `[]`; a parsed non-array yields `[]`; an array is
filtered by `validAccount`. -/
def getAccounts : StorageSlot → List JValue
  | .absent => []
  | .malformed => []
  | .val v =>
    match v with
    | .jarr parsed => parsed.filter validAccount
    | _ => []

/-- `Array.isArray`. -/
def isArr : JValue → Bool
  | .jarr _ => true
  | _ => false

/-- The `AWSAccount` interface from src/types. -/
structure AWSAccount where
  id : String
  name : String
  accountId : String
  isDefault : Option Bool


/-- JSON.stringify of one account record (the optional `isDefault`
field is omitted when undefined), composed with JSON.parse. -/
def AWSAccount.toJson (a : AWSAccount) : JValue :=
  .jobj ([("id", .jstr a.id), ("name", .jstr a.name),
          ("accountId", .jstr a.accountId)] ++
         (match a.isDefault with
          | some b => [("isDefault", .jbool b)]
          | none => []))

/-- `storageService.saveAccounts` (success path of `setItem`): the slot
now holds the JSON serialization of the list.  stringify-then-parse is
the identity on the modelled values, so the slot stores the value. -/
def saveAccounts (accounts : List AWSAccount) (_slot : StorageSlot) : StorageSlot :=
  .val (.jarr (accounts.map AWSAccount.toJson))

/-! ## securityCache -/

/-- `CACHE_DURATION = 30 * 60 * 1000` (30 minutes, in milliseconds). -/
def CACHE_DURATION : Int := 30 * 60 * 1000

/-- The `SecurityCacheData` shape stored by `securityCache.save`;
`issues` and `stats` are opaque payloads here. -/
structure SecurityCacheData where
  issues : JValue
  stats : JValue
  timestamp : Int
  accountId : String
  region : String


/-- The localStorage slot for one category key. -/
inductive SecuritySlot where
  | absent
  | malformed
  | val (d : SecurityCacheData)


/-- `securityCache.load(categoryId, accountId, region)` at time `now`
(`Date.now()`); returns the result and the slot after the call.
A missing key returns null; a JSON.parse failure is caught and returns
null without touching the slot; a stored entry that is expired
(`now - timestamp > CACHE_DURATION`) or bound to a different account or
region is removed (`this.clear`) and null is returned; otherwise the
entry is returned. -/
def securityCacheLoad (slot : SecuritySlot) (accountId region : String)
    (now : Int) : Option SecurityCacheData × SecuritySlot :=
  match slot with
  | .absent => (none, .absent)
  | .malformed => (none, .malformed)
  | .val data =>
    let isExpired := now - data.timestamp > CACHE_DURATION
    let isDifferentAccount := data.accountId != accountId
    let isDifferentRegion := data.region != region
    if isExpired || isDifferentAccount || isDifferentRegion then
      (none, .absent)
    else
      (some data, .val data)

/-! ## AuthService: token storage and SAML-path refresh -/

/-- The `CognitoTokens` triple. -/
structure Tokens where
  idToken : String
  accessToken : String
  refreshToken : String

/-- The three sessionStorage keys used by `storeTokens` /
`getStoredTokens` / `clearTokens`. -/
structure SessionTokens where
  idToken : Option String
  accessToken : Option String
  refreshToken : Option String

/-- `storeTokens`: writes all three keys. -/
def storeTokens (t : Tokens) (_ss : SessionTokens) : SessionTokens :=
  { idToken := some t.idToken,
    accessToken := some t.accessToken,
    refreshToken := some t.refreshToken }

/-- `getStoredTokens`: some only when all three keys are present. -/
def getStoredTokens (ss : SessionTokens) : Option Tokens :=
  match ss.idToken, ss.accessToken, ss.refreshToken with
  | some i, some a, some r => some ⟨i, a, r⟩
  | _, _, _ => none

/-- Outcome of the POST to the backend refresh proxy: either a
failure (status not ok, with the response text), or the JSON body's
`id_token` and `access_token`. -/
inductive RefreshOutcome where
  | failure (errorText : String)
  | success (idToken accessToken : String)

/-- `AuthService.refreshTokens(refreshToken)`: on a non-ok response it
throws; on success it stores the two new tokens together with the
refreshToken argument unchanged ("Refresh token is not rotated") and
returns the session built from them.  Result: the thrown/returned value
and the sessionStorage after the call. -/
def refreshTokens (refreshTok : String) (outcome : RefreshOutcome)
    (ss : SessionTokens) : Except String Tokens × SessionTokens :=
  match outcome with
  | .failure errorText =>
    (.error ("Failed to refresh tokens: " ++ errorText), ss)
  | .success newId newAccess =>
    let toks : Tokens := ⟨newId, newAccess, refreshTok⟩
    (.ok toks, storeTokens toks ss)

/-- `AuthService.refreshSession` on the SAML path (no Cognito user
object): reads the stored tokens and calls `refreshTokens` with the
stored refresh token; throws when no full token triple is stored. -/
def refreshSessionSAML (outcome : RefreshOutcome)
    (ss : SessionTokens) : Except String Tokens × SessionTokens :=
  match getStoredTokens ss with
  | some toks => refreshTokens toks.refreshToken outcome ss
  | none => (.error "No user session to refresh", ss)

/-! ## ApiService

The request wrapper: 30-second cache for non-POST requests, bearer
token, one automatic refresh-and-retry on 401.  The embedding passes
the mutable pieces (`requestCache`, `isRefreshing`, `refreshPromise`)
explicitly, draws network responses from a schedule list (one entry
consumed per `fetch`), and counts network and refresh calls. -/

/-- `CACHE_TTL = 30000` (30 seconds, in milliseconds). -/
def CACHE_TTL : Int := 30000

/-- The slice of `RequestInit` this logic inspects (`options?.method`;
headers and body do not influence the modelled control flow). -/
structure ReqOptions where
  method : Option String
deriving DecidableEq

/-- `options?.method` with optional chaining. -/
def optMethod : Option ReqOptions → Option String
  | none => none
  | some o => o.method

/-- `getCacheKey(url, options)` concatenates the url with
`JSON.stringify(options || \x7b\x7d)`; on the modelled options type that
string is determined by (and determines) the pair, so the key is the
pair itself. -/
def getCacheKey (url : String) (options : Option ReqOptions) :
    String × Option ReqOptions :=
  (url, options)

/-- `isCacheValid(timestamp)` at time `now`. -/
def isCacheValid (now timestamp : Int) : Bool :=
  now - timestamp < CACHE_TTL

/-- One outcome of `fetch`: a response with an HTTP status whose body
either parses as JSON (`some`) or makes `response.json()` throw a
SyntaxError (`none`); or a rejected fetch (TypeError: Failed to
fetch). -/
inductive FetchOutcome where
  | response (status : Nat) (body : Option JValue)
  | netFailure

/-- `response.ok`: status in the 200-299 range. -/
def statusOk (status : Nat) : Bool :=
  200 ≤ status && status < 300

/-- `const data = responseData.data || responseData`. -/
def unwrapEnvelope (responseData : JValue) : JValue :=
  match getField responseData "data" with
  | some d => if jsTruthy d then d else responseData
  | none => responseData

/-- The injected collaborators of `ApiService`: result of the token
getter (`none` when no getter is set; a thrown error's message; or the
token-or-null it resolves to), the configured refresher and the outcome
of calling it (`none` when `setTokenRefresher` was never called), and
the base URL. -/
structure ApiEnv where
  tokenGetter : Option (Except String (Option String))
  refresher : Option (Except String Unit)
  baseURL : String

/-- The mutable fields of `ApiService` that `request` touches.
`refreshPromise` stores the eventual outcome of the promise assigned to
`this.refreshPromise` (what awaiting it yields). -/
structure ApiState where
  cache : List ((String × Option ReqOptions) × JValue × Int)
  isRefreshing : Bool
  refreshPromise : Option (Except String Unit)

/-- The state of `ApiService` right after construction. -/
def apiInit : ApiState :=
  { cache := [], isRefreshing := false, refreshPromise := none }

/-- `this.requestCache.get(key)`. -/
def cacheGet (cache : List ((String × Option ReqOptions) × JValue × Int))
    (key : String × Option ReqOptions) : Option (JValue × Int) :=
  (cache.find? (fun e => decide (e.1 = key))).map (fun e => e.2)

/-- `this.requestCache.set(key, entry)` (replaces any binding for the
key). -/
def cacheSet (cache : List ((String × Option ReqOptions) × JValue × Int))
    (key : String × Option ReqOptions) (data : JValue) (ts : Int) :
    List ((String × Option ReqOptions) × JValue × Int) :=
  (key, data, ts) :: cache.filter (fun e => decide (¬ e.1 = key))

/-- The cache-check prefix of `request`: for non-POST requests with
caching on, a cached entry younger than `CACHE_TTL` is returned
directly. -/
def cachedLookup (useCache : Bool) (options : Option ReqOptions)
    (cache : List ((String × Option ReqOptions) × JValue × Int))
    (key : String × Option ReqOptions) (now : Int) : Option JValue :=
  if useCache && optMethod options ≠ some "POST" then
    match cacheGet cache key with
    | some (data, ts) => if isCacheValid now ts then some data else none
    | none => none
  else none

/-- Everything one `request` call produces: the returned/thrown value,
the instance state after the call, the unconsumed response schedule,
and how many `fetch` and refresher calls were made. -/
structure ReqResult where
  result : Except String JValue
  state : ApiState
  responses : List FetchOutcome
  networkCalls : Nat
  refreshCalls : Nat

/-- The token-acquisition step of `request`: no configured getter
yields no token, a throwing getter is caught and re-thrown with its
message (or the fixed message when that is empty). -/
def tokenStep (g : Option (Except String (Option String))) :
    Except String (Option String) :=
  match g with
  | none => .ok none
  | some (.ok t) => .ok t
  | some (.error msg) =>
    .error (if msg = "" then
      "Authentication failed. Please sign in again." else msg)

/-- The per-attempt body of `ApiService.request(endpoint, options,
useCache, retryCount)` at time `now`.  The source function recurses at
most once (it calls itself only with `retryCount + 1` when
`retryCount === 0`), so the recursion is unrolled below: `request` is
the `retryCount = 0` call and `requestRetried` the retried
`retryCount = 1` call; the only part that depends on `retryCount` — the
401 branch — is the `on401` argument.  An exhausted response schedule
behaves as a rejected `fetch`.  The string `statusText` appended by the
source to "Server error" messages is not modelled. -/
def fetchStep (env : ApiEnv) (options : Option ReqOptions)
    (useCache : Bool) (now : Int) (st : ApiState)
    (responses : List FetchOutcome) (cacheKey : String × Option ReqOptions)
    (on401 : List FetchOutcome → ReqResult) : ReqResult :=
  -- Check cache
  match cachedLookup useCache options st.cache cacheKey now with
  | some data =>
    { result := .ok data, state := st, responses := responses,
      networkCalls := 0, refreshCalls := 0 }
  | none =>
    -- Get authentication token
    match tokenStep env.tokenGetter with
    | .error msg =>
      { result := .error msg,
        state := st, responses := responses,
        networkCalls := 0, refreshCalls := 0 }
    | .ok _authToken =>
      match responses with
      | [] =>
        -- fetch with nothing scheduled: modelled as a rejected fetch
        { result := .error ("Cannot connect to API server. Is it running on "
              ++ env.baseURL ++ "?"),
          state := st, responses := [],
          networkCalls := 1, refreshCalls := 0 }
      | .netFailure :: rest =>
        { result := .error ("Cannot connect to API server. Is it running on "
              ++ env.baseURL ++ "?"),
          state := st, responses := rest,
          networkCalls := 1, refreshCalls := 0 }
      | .response status body :: rest =>
        if statusOk status then
          match body with
          | none =>
            -- response.json() threw a SyntaxError
            { result := .error "Server returned invalid JSON response",
              state := st, responses := rest,
              networkCalls := 1, refreshCalls := 0 }
          | some responseData =>
            -- Handle nested response structure, then cache
            let data := unwrapEnvelope responseData
            let st' :=
              if useCache && optMethod options ≠ some "POST" then
                { st with cache := cacheSet st.cache cacheKey data now }
              else st
            { result := .ok data, state := st', responses := rest,
              networkCalls := 1, refreshCalls := 0 }
        else if status = 401 then
          on401 rest
        else if status = 403 then
          { result := .error ("Access forbidden. You do not have permission "
                ++ "to access this resource."),
            state := st, responses := rest,
            networkCalls := 1, refreshCalls := 0 }
        else
          { result := .error ("Server error: " ++ toString status),
            state := st, responses := rest,
            networkCalls := 1, refreshCalls := 0 }

/-- The `retryCount = 1` call of `ApiService.request` (the single
retry): on a 401 the guard `retryCount === 0 && refreshTokenFunction`
is false, so it throws the authentication-required error. -/
def requestRetried (env : ApiEnv) (endpoint : String)
    (options : Option ReqOptions) (useCache : Bool) (now : Int)
    (st : ApiState) (responses : List FetchOutcome) : ReqResult :=
  fetchStep env options useCache now st responses
    (getCacheKey (env.baseURL ++ endpoint) options)
    (fun rest =>
      { result := .error "Authentication required. Please sign in again.",
        state := st, responses := rest,
        networkCalls := 1, refreshCalls := 0 })

/-- `ApiService.request` as called from the public methods
(`retryCount = 0`): on a 401, if a refresher is configured, either
await a shared in-flight refresh or start one (one refresher call),
then retry once via `requestRetried`; every error coming out of the
refresh-and-retry `try` block is caught and surfaced as the
session-expired error. -/
def request (env : ApiEnv) (endpoint : String) (options : Option ReqOptions)
    (useCache : Bool) (now : Int) (st : ApiState)
    (responses : List FetchOutcome) : ReqResult :=
  fetchStep env options useCache now st responses
    (getCacheKey (env.baseURL ++ endpoint) options)
    (fun rest =>
      match env.refresher with
      | none =>
        { result := .error "Authentication required. Please sign in again.",
          state := st, responses := rest,
          networkCalls := 1, refreshCalls := 0 }
      | some refreshOutcome =>
        -- try { ...refresh and retry... } catch (refreshError)
        if st.isRefreshing && st.refreshPromise.isSome then
          -- await the shared in-flight refresh promise
          match st.refreshPromise with
          | some (.ok _) =>
            let inner := requestRetried env endpoint options useCache now st rest
            (match inner.result with
             | .ok v =>
               { inner with
                 result := .ok v
                 networkCalls := inner.networkCalls + 1 }
             | .error _ =>
               { result := .error "Session expired. Please sign in again.",
                 state := { inner.state with
                            isRefreshing := false
                            refreshPromise := none },
                 responses := inner.responses,
                 networkCalls := inner.networkCalls + 1,
                 refreshCalls := inner.refreshCalls })
          | some (.error _) =>
            { result := .error "Session expired. Please sign in again.",
              state := { st with
                         isRefreshing := false
                         refreshPromise := none },
              responses := rest, networkCalls := 1, refreshCalls := 0 }
          | none =>
            -- unreachable: the guard requires refreshPromise.isSome
            { result := .error "Session expired. Please sign in again.",
              state := { st with
                         isRefreshing := false
                         refreshPromise := none },
              responses := rest, networkCalls := 1, refreshCalls := 0 }
        else
          -- this.isRefreshing = true; this.refreshPromise = refresher()
          match refreshOutcome with
          | .ok _ =>
            -- await succeeded; flags are reset, then the retry runs
            let st' := { st with
                         isRefreshing := false
                         refreshPromise := none }
            let inner := requestRetried env endpoint options useCache now st' rest
            (match inner.result with
             | .ok v =>
               { inner with
                 result := .ok v
                 networkCalls := inner.networkCalls + 1
                 refreshCalls := inner.refreshCalls + 1 }
             | .error _ =>
               -- any error from the retry is caught by the refresh
               -- catch block and surfaced as a session expiry
               { result := .error "Session expired. Please sign in again.",
                 state := { inner.state with
                            isRefreshing := false
                            refreshPromise := none },
                 responses := inner.responses,
                 networkCalls := inner.networkCalls + 1,
                 refreshCalls := inner.refreshCalls + 1 })
          | .error _ =>
            { result := .error "Session expired. Please sign in again.",
              state := { st with
                         isRefreshing := false
                         refreshPromise := none },
              responses := rest, networkCalls := 1, refreshCalls := 1 })

/-- `fetchRegions(accountId)`: calls `request` on
`/api/$accountId/regions` with no options and caching on, then
dispatches on the response format.  The returned list holds the mapped
region values (strings in practice).  A truthy non-array `data` would
make the source throw a TypeError at `.map`; that value is surfaced as
an error here. -/
def fetchRegions (env : ApiEnv) (accountId : String) (now : Int)
    (st : ApiState) (responses : List FetchOutcome) :
    Except String (List JValue) × ApiState :=
  let r := request env ("/api/" ++ accountId ++ "/regions") none true now st responses
  match r.result with
  | .error e => (.error e, r.state)
  | .ok response =>
    if strictEqStr (getField response "status") "success" &&
       jsTruthyOpt (getField response "data") then
      -- Old format: envelope with status and data
      match getField response "data" with
      | some (.jarr regions) =>
        (.ok ((regions.map (fun r =>
            match getField r "name" with
            | some n => if jsTruthy n then n else r
            | none => r)).filter jsTruthy), r.state)
      | _ => (.error "TypeError: regions.map is not a function", r.state)
    else if jsTruthyOpt (getField response "active_regions") then
      -- New format: active_regions list
      match getField response "active_regions" with
      | some (.jarr actives) =>
        (.ok ((actives.map (fun r =>
            match getField r "RegionName" with
            | some n => if jsTruthy n then n else
                (match getField r "name" with
                 | some m => if jsTruthy m then m else r
                 | none => r)
            | none =>
                (match getField r "name" with
                 | some m => if jsTruthy m then m else r
                 | none => r))).filter jsTruthy), r.state)
      | _ => (.error "TypeError: active_regions.map is not a function", r.state)
    else
      (.ok [], r.state)

/-! ## Refresh de-duplication under interleaving

Two callers that both received a 401 run the refresh block of
`ApiService.request` (lines guarded by `retryCount === 0 &&
this.refreshTokenFunction`).  In the browser event loop the code from
the `isRefreshing && refreshPromise` test up to the first `await` runs
without interleaving, so it is one atomic step; the continuation after
the refresh promise resolves is another. -/

/-- The two concurrent callers. -/
inductive Caller where
  | a
  | b
deriving DecidableEq

/-- What a caller is doing inside the refresh block. -/
inductive RefreshPhase where
  | ready         -- has its 401, about to run the refresh block
  | waitingShared -- took the `isRefreshing && refreshPromise` branch
  | owner         -- started the refresh itself, awaiting its promise
  | done
deriving DecidableEq

/-- The shared `ApiService` fields plus a count of refresher calls. -/
structure RefreshSystem where
  isRefreshing : Bool
  refreshPromiseSet : Bool
  refreshNetworkCalls : Nat
  phaseA : RefreshPhase
  phaseB : RefreshPhase

def phaseOf (s : RefreshSystem) : Caller → RefreshPhase
  | .a => s.phaseA
  | .b => s.phaseB

def setPhase (s : RefreshSystem) : Caller → RefreshPhase → RefreshSystem
  | .a, p => { s with phaseA := p }
  | .b, p => { s with phaseB := p }

/-- Both callers hold a 401; no refresh has started. -/
def refreshInit : RefreshSystem :=
  { isRefreshing := false, refreshPromiseSet := false,
    refreshNetworkCalls := 0, phaseA := .ready, phaseB := .ready }

/-- Atomic steps of the event loop inside the refresh block. -/
inductive RefreshEvent where
  | enter (c : Caller)    -- runs the synchronous check-and-branch
  | complete (c : Caller) -- the owner's refresh promise resolves

/-- One scheduler step.  `enter` is the synchronous prefix of the
refresh block: either the caller finds a refresh in flight and awaits
the shared promise, or it sets `isRefreshing`, assigns
`this.refreshPromise = this.refreshTokenFunction()` (one refresh
network call) and awaits it.  `complete` is the owner's continuation
after its await: it clears both fields; awaiting waiters resume. -/
def refreshStep (s : RefreshSystem) : RefreshEvent → RefreshSystem
  | .enter c =>
    match phaseOf s c with
    | .ready =>
      if s.isRefreshing && s.refreshPromiseSet then
        setPhase s c .waitingShared
      else
        let s' := { s with
                    isRefreshing := true
                    refreshPromiseSet := true
                    refreshNetworkCalls := s.refreshNetworkCalls + 1 }
        setPhase s' c .owner
    | _ => s
  | .complete c =>
    match phaseOf s c with
    | .owner =>
      let s' := { s with
                  isRefreshing := false
                  refreshPromiseSet := false }
      setPhase s' c .done
    | _ => s

/-! ## AuthService timer scheduling

The pieces of `AuthService` state that `scheduleTokenRefresh`,
`refreshSession`, `refreshTokens`, `getSession` and `signOut` touch,
together with the platform's pending-timeout set.  A pending timer is a
(handle, fire time) pair; `setTimeout` returns a fresh handle,
`clearTimeout` removes the handle from the pending set, and a timer
that fires is removed by the platform (the `refreshTimer` field is not
nulled when that happens). -/

structure AuthState where
  refreshTimer : Option Nat
  pending : List (Nat × Int)
  nextHandle : Nat
  stored : Option Tokens
  hasCognitoUser : Bool

/-- Freshly constructed service: no timer, nothing stored, no user. -/
def authInit : AuthState :=
  { refreshTimer := none, pending := [], nextHandle := 0,
    stored := none, hasCognitoUser := false }

/-- `scheduleTokenRefresh(session)` at time `now`, where `expiration`
is the ID token's `exp` claim in seconds: clears any timer held in
`this.refreshTimer`, then sets one for
`max(expiration*1000 - now - 5*60*1000, 0)` milliseconds from now. -/
def scheduleTokenRefresh (expiration now : Int) (s : AuthState) : AuthState :=
  let cleared :=
    match s.refreshTimer with
    | some h => s.pending.filter (fun p => p.1 ≠ h)
    | none => s.pending
  let expiresIn := expiration * 1000 - now
  let refreshTime := max (expiresIn - 5 * 60 * 1000) 0
  { s with
    pending := cleared ++ [(s.nextHandle, now + refreshTime)]
    refreshTimer := some s.nextHandle
    nextHandle := s.nextHandle + 1 }

/-- The externally visible transitions of the service. -/
inductive AuthEvent where
  | signInSuccess (expiration now : Int)
      -- username/password sign-in succeeded: user set, refresh scheduled
  | authCallbackSuccess (t : Tokens)
      -- handleAuthCallback stored the exchanged tokens (no scheduling)
  | getSessionSAML (expiration now : Int)
      -- getSession with no user and stored tokens: schedules only
      -- when `this.refreshTimer` has never been set
  | timerFired (h : Nat)
      -- the platform fires pending timer h (removing it); the refresh
      -- the callback starts is reported as a separate event
  | samlRefreshSuccess (newId newAccess : String)
      -- refreshSession with no user: refreshTokens succeeded against
      -- the backend proxy; stores tokens, schedules nothing
  | cognitoRefreshSuccess (expiration now : Int) (t : Tokens)
      -- refreshSession with a user: stores tokens and reschedules
  | signOutEvent (now : Int)

/-- One transition.  Faithful points: `samlRefreshSuccess` never calls
`scheduleTokenRefresh`; the SAML branch of `signOut` clears tokens and
redirects without touching the timer; the Cognito branch calls
`clearTimeout` but leaves `this.refreshTimer` set. -/
def authStep (s : AuthState) : AuthEvent → AuthState
  | .signInSuccess expiration now =>
    scheduleTokenRefresh expiration now { s with hasCognitoUser := true }
  | .authCallbackSuccess t =>
    { s with stored := some t }
  | .getSessionSAML expiration now =>
    if s.hasCognitoUser then s
    else match s.stored with
      | some _ =>
        (match s.refreshTimer with
         | none => scheduleTokenRefresh expiration now s
         | some _ => s)
      | none => s
  | .timerFired h =>
    { s with pending := s.pending.filter (fun p => p.1 ≠ h) }
  | .samlRefreshSuccess newId newAccess =>
    if s.hasCognitoUser then s
    else match s.stored with
      | some toks =>
        { s with stored := some ⟨newId, newAccess, toks.refreshToken⟩ }
      | none => s
  | .cognitoRefreshSuccess expiration now t =>
    if s.hasCognitoUser then
      scheduleTokenRefresh expiration now { s with stored := some t }
    else s
  | .signOutEvent _ =>
    if s.hasCognitoUser then
      { s with
        stored := none
        hasCognitoUser := false
        pending := match s.refreshTimer with
                   | some h => s.pending.filter (fun p => p.1 ≠ h)
                   | none => s.pending }
    else
      { s with stored := none }

/-- A whole session history. -/
def authRun (s : AuthState) (events : List AuthEvent) : AuthState :=
  events.foldl authStep s

/-- The timer invariant tying `refreshTimer` to the platform's pending
set: at most the timer named by `refreshTimer` is pending, and handles
never collide with fresh ones. -/
def TimerInv (s : AuthState) : Prop :=
  s.pending = [] ∨
    ∃ h t, s.pending = [(h, t)] ∧ s.refreshTimer = some h

/-! ## Helper lemmas -/

lemma validAccount_eq_true (v : JValue) :
    validAccount v = true ↔
      jsTruthy v = true ∧ typeofIsObject v = true ∧
      isStringField v "id" = true ∧ isStringField v "name" = true ∧
      ∃ s, getField v "accountId" = some (.jstr s) ∧
        s.length = 12 ∧ s.data.all Char.isDigit = true := by
  unfold validAccount isAwsAccountId
  cases h : getField v "accountId" with
  | none => simp [h]
  | some w => cases w <;> simp [h, and_assoc]

lemma getField_toJson_id (a : AWSAccount) :
    getField (AWSAccount.toJson a) "id" = some (.jstr a.id) := by
  cases h : a.isDefault <;> simp [AWSAccount.toJson, getField, h, List.find?]

lemma getField_toJson_name (a : AWSAccount) :
    getField (AWSAccount.toJson a) "name" = some (.jstr a.name) := by
  cases h : a.isDefault <;> simp [AWSAccount.toJson, getField, h, List.find?]

lemma getField_toJson_accountId (a : AWSAccount) :
    getField (AWSAccount.toJson a) "accountId" = some (.jstr a.accountId) := by
  cases h : a.isDefault <;> simp [AWSAccount.toJson, getField, h, List.find?]

lemma validAccount_toJson (a : AWSAccount) :
    validAccount (AWSAccount.toJson a) = isAwsAccountId a.accountId := by
  have hobj : ∃ fields, AWSAccount.toJson a = .jobj fields := by
    cases h : a.isDefault <;> simp [AWSAccount.toJson, h]
  obtain ⟨fields, hf⟩ := hobj
  unfold validAccount
  rw [getField_toJson_accountId, hf]
  simp [jsTruthy, typeofIsObject, isStringField, ← hf,
        getField_toJson_id, getField_toJson_name]

/-! ## Claims about storageService -/

/-- C6: for every value stored under the accounts key,
`storageService.getAccounts` returns exactly those elements that are
(truthy) objects with a string `id`, a string `name` and a string
`accountId` of exactly twelve decimal digits; every other element is
excluded. -/
theorem getAccounts_returns_exactly_valid_records (vs : List JValue) (v : JValue) :
    v ∈ getAccounts (.val (.jarr vs)) ↔
      v ∈ vs ∧ jsTruthy v = true ∧ typeofIsObject v = true ∧
      isStringField v "id" = true ∧ isStringField v "name" = true ∧
      ∃ s, getField v "accountId" = some (.jstr s) ∧
        s.length = 12 ∧ s.data.all Char.isDigit = true := by
  rw [show getAccounts (.val (.jarr vs)) = vs.filter validAccount from rfl,
      List.mem_filter, validAccount_eq_true]

/-- C7: a record with string `id` and `name` and a twelve-digit
`accountId` survives a `saveAccounts` / `getAccounts` round trip
unchanged. -/
theorem saveAccounts_getAccounts_roundtrip (l : List AWSAccount) (r : AWSAccount)
    (slot : StorageSlot) (hmem : r ∈ l)
    (hid : isAwsAccountId r.accountId = true) :
    AWSAccount.toJson r ∈ getAccounts (saveAccounts l slot) := by
  simp only [saveAccounts, getAccounts, List.mem_filter]
  exact ⟨List.mem_map_of_mem _ hmem, by rw [validAccount_toJson]; exact hid⟩

/-- Witness for C7 at the spec's example record. -/
theorem saveAccounts_getAccounts_roundtrip_witness :
    AWSAccount.toJson ⟨"1", "Prod", "123456789012", none⟩ ∈
      getAccounts (saveAccounts [⟨"1", "Prod", "123456789012", none⟩] .absent) :=
  saveAccounts_getAccounts_roundtrip _ _ _ (List.mem_singleton.mpr rfl) (by decide)

/-- C8: `getAccounts` is total: an absent key, a slot that JSON.parse
rejects and a parsed non-array all yield `[]` (the throwing paths are
all caught), and an array yields the filtered list. -/
theorem getAccounts_total_on_malformed :
    getAccounts .absent = [] ∧ getAccounts .malformed = [] ∧
    (∀ v : JValue, isArr v = false → getAccounts (.val v) = []) ∧
    (∀ vs : List JValue, getAccounts (.val (.jarr vs)) = vs.filter validAccount) := by
  refine ⟨rfl, rfl, ?_, fun vs => rfl⟩
  intro v h
  cases v <;> first | rfl | simp [isArr] at h

/-- Witness for C8 on a parsed non-array value. -/
theorem getAccounts_total_on_malformed_witness :
    getAccounts (.val (.jstr "oops")) = [] :=
  getAccounts_total_on_malformed.2.2.1 (.jstr "oops") rfl

/-! ## Claims about AuthService token refresh -/

/-- C9: a successful SAML-path refresh (`refreshSession` through the
backend proxy) leaves the stored refresh token exactly as it was and
replaces only the stored ID and access tokens with the response's. -/
theorem refreshTokens_preserves_refreshToken (ss : SessionTokens) (toks : Tokens)
    (newId newAccess : String) (h : getStoredTokens ss = some toks) :
    (refreshSessionSAML (.success newId newAccess) ss).2.refreshToken
        = ss.refreshToken ∧
    (refreshSessionSAML (.success newId newAccess) ss).2.idToken = some newId ∧
    (refreshSessionSAML (.success newId newAccess) ss).2.accessToken
        = some newAccess := by
  have hrt : ss.refreshToken = some toks.refreshToken := by
    unfold getStoredTokens at h
    cases hI : ss.idToken <;> cases hA : ss.accessToken <;>
      cases hR : ss.refreshToken <;> rw [hI, hA, hR] at h <;> simp_all
    subst h
    rfl
  simp [refreshSessionSAML, h, refreshTokens, storeTokens, hrt]

/-- Witness for C9. -/
theorem refreshTokens_preserves_refreshToken_witness :
    (refreshSessionSAML (.success "newI" "newA")
        ⟨some "i0", some "a0", some "r0"⟩).2.refreshToken = some "r0" ∧
    (refreshSessionSAML (.success "newI" "newA")
        ⟨some "i0", some "a0", some "r0"⟩).2.idToken = some "newI" ∧
    (refreshSessionSAML (.success "newI" "newA")
        ⟨some "i0", some "a0", some "r0"⟩).2.accessToken = some "newA" :=
  refreshTokens_preserves_refreshToken ⟨some "i0", some "a0", some "r0"⟩
    ⟨"i0", "a0", "r0"⟩ "newI" "newA" rfl

/-! ## Claims about securityCache -/

/-- C10 counterexample: with matching account and region, an entry
whose age is exactly 30 minutes (`now - timestamp = CACHE_DURATION`) is
still returned, although its timestamp is not less than 30 minutes
old.  -/
theorem securityCacheLoad_returns_entry_at_exact_expiry :
    (securityCacheLoad
        (.val ⟨.jnull, .jnull, 0, "111111111111", "us-east-1"⟩)
        "111111111111" "us-east-1" CACHE_DURATION).1 =
      some ⟨.jnull, .jnull, 0, "111111111111", "us-east-1"⟩ ∧
    ¬ (CACHE_DURATION - (0 : Int) < CACHE_DURATION) := by
  constructor
  · rfl
  · simp

/-- C10 (amended): `securityCache.load` returns the stored entry
exactly when it is at most 30 minutes old (age strictly greater than
`CACHE_DURATION` counts as expired) and its account and region equal
the arguments; otherwise it removes the entry and returns null. -/
theorem securityCacheLoad_characterization (d : SecurityCacheData)
    (acc reg : String) (now : Int) :
    (now - d.timestamp ≤ CACHE_DURATION ∧ d.accountId = acc ∧ d.region = reg →
      securityCacheLoad (.val d) acc reg now = (some d, .val d)) ∧
    (CACHE_DURATION < now - d.timestamp ∨ d.accountId ≠ acc ∨ d.region ≠ reg →
      securityCacheLoad (.val d) acc reg now = (none, .absent)) := by
  unfold securityCacheLoad
  constructor
  · rintro ⟨h1, h2, h3⟩
    simp [h2, h3, not_lt.2 h1]
  · intro h
    rcases h with h | h | h <;> simp [h]

/-- Witness for C10's amended characterization (both branches). -/
theorem securityCacheLoad_characterization_witness :
    securityCacheLoad (.val ⟨.jnull, .jnull, 0, "a", "r"⟩) "a" "r" 5 =
      (some ⟨.jnull, .jnull, 0, "a", "r"⟩, .val ⟨.jnull, .jnull, 0, "a", "r"⟩) ∧
    securityCacheLoad (.val ⟨.jnull, .jnull, 0, "a", "r"⟩) "a" "r" 1800001 =
      (none, .absent) :=
  ⟨(securityCacheLoad_characterization ⟨.jnull, .jnull, 0, "a", "r"⟩ "a" "r" 5).1
      ⟨by norm_num [CACHE_DURATION], rfl, rfl⟩,
   (securityCacheLoad_characterization ⟨.jnull, .jnull, 0, "a", "r"⟩ "a" "r" 1800001).2
      (Or.inl (by norm_num [CACHE_DURATION]))⟩

/-! ## Claims about AuthService timer scheduling -/

lemma schedulePending (s : AuthState) (hInv : TimerInv s) (e n : Int) :
    (scheduleTokenRefresh e n s).pending
        = [(s.nextHandle, n + max (e * 1000 - n - 5 * 60 * 1000) 0)] ∧
    (scheduleTokenRefresh e n s).refreshTimer = some s.nextHandle := by
  rcases hInv with h0 | ⟨h, t, hp, ht⟩
  · unfold scheduleTokenRefresh
    cases hr : s.refreshTimer <;> simp [h0, hr]
  · unfold scheduleTokenRefresh
    rw [ht, hp]
    simp

lemma timerInv_step (s : AuthState) (e : AuthEvent) (h : TimerInv s) :
    TimerInv (authStep s e) := by
  have hsched : ∀ (s' : AuthState) (ex n : Int), TimerInv s' →
      TimerInv (scheduleTokenRefresh ex n s') := fun s' ex n h' =>
    Or.inr ⟨_, _, (schedulePending s' h' ex n).1, (schedulePending s' h' ex n).2⟩
  cases e with
  | signInSuccess ex n => exact hsched _ ex n h
  | authCallbackSuccess t => exact h
  | getSessionSAML ex n =>
    simp only [authStep]
    split
    · exact h
    · split
      · split
        · exact hsched _ _ _ h
        · exact h
      · exact h
  | timerFired hh =>
    rcases h with h0 | ⟨h', t, hp, ht⟩
    · left
      simp [authStep, h0]
    · show TimerInv { s with pending := s.pending.filter _ }
      rw [hp]
      by_cases hd : h' = hh
      · left
        simp [hd]
      · right
        exact ⟨h', t, by simp [hd], ht⟩
  | samlRefreshSuccess i a =>
    simp only [authStep]
    split
    · exact h
    · split
      · exact h
      · exact h
  | cognitoRefreshSuccess ex n t =>
    simp only [authStep]
    split
    · exact hsched _ _ _ h
    · exact h
  | signOutEvent n =>
    simp only [authStep]
    split
    · rcases h with h0 | ⟨h', t, hp, ht⟩
      · left
        cases hr : s.refreshTimer <;> simp [h0, hr]
      · left
        rw [ht, hp]
        simp
    · exact h

lemma timerInv_run (events : List AuthEvent) (s : AuthState) (h : TimerInv s) :
    TimerInv (authRun s events) := by
  induction events generalizing s with
  | nil => exact h
  | cons e es ih => exact ih _ (timerInv_step s e h)

/-- C4 counterexample: from a fresh service, a SAML login stores
tokens, `getSession` schedules the proactive timer, the timer fires,
and then a successful SAML-path refresh completes — yet afterwards no
timer is pending: this successful refresh did not reschedule the
refresh timer (and `refreshTokens` never calls
`scheduleTokenRefresh`). -/
theorem saml_refresh_does_not_reschedule :
    (authRun authInit
      [.authCallbackSuccess ⟨"id0", "ac0", "rt0"⟩,
       .getSessionSAML 3600 0,
       .timerFired 0,
       .samlRefreshSuccess "id1" "ac1"]).stored
        = some ⟨"id1", "ac1", "rt0"⟩ ∧
    (authRun authInit
      [.authCallbackSuccess ⟨"id0", "ac0", "rt0"⟩,
       .getSessionSAML 3600 0,
       .timerFired 0,
       .samlRefreshSuccess "id1" "ac1"]).pending = [] := by
  constructor <;> rfl

/-- C4 (amended): in every reachable service state at most one refresh
timer is pending; `scheduleTokenRefresh` sets it to fire
`max(expiry - 5 minutes - now, 0)` from now; the Cognito-path refresh
reschedules it and the Cognito-path sign-out clears it; but the
SAML-path refresh leaves the timer state untouched (no rescheduling)
and the SAML-path sign-out does not clear a pending timer. -/
theorem auth_timer_discipline :
    (∀ events : List AuthEvent, (authRun authInit events).pending.length ≤ 1) ∧
    (∀ (s : AuthState) (e n : Int) (t : Tokens),
      TimerInv s → s.hasCognitoUser = true →
      (authStep s (.cognitoRefreshSuccess e n t)).pending
        = [(s.nextHandle, n + max (e * 1000 - n - 5 * 60 * 1000) 0)]) ∧
    (∀ (s : AuthState) (n : Int), TimerInv s → s.hasCognitoUser = true →
      (authStep s (.signOutEvent n)).pending = []) ∧
    (∀ (s : AuthState) (i a : String),
      (authStep s (.samlRefreshSuccess i a)).pending = s.pending ∧
      (authStep s (.samlRefreshSuccess i a)).refreshTimer = s.refreshTimer) ∧
    (∀ (s : AuthState) (n : Int), s.hasCognitoUser = false →
      (authStep s (.signOutEvent n)).pending = s.pending) := by
  refine ⟨?_, ?_, ?_, ?_, ?_⟩
  · intro events
    have h := timerInv_run events authInit (Or.inl rfl)
    rcases h with h0 | ⟨h', t, hp, _⟩
    · simp [h0]
    · simp [hp]
  · intro s e n t hInv hu
    simp only [authStep, hu, if_true]
    exact (schedulePending _ hInv e n).1
  · intro s n hInv hu
    simp only [authStep, hu, if_true]
    rcases hInv with h0 | ⟨h', t, hp, ht⟩
    · cases hr : s.refreshTimer <;> simp [h0, hr]
    · rw [ht, hp]
      simp
  · intro s i a
    simp only [authStep]
    constructor
    · split
      · rfl
      · split
        · rfl
        · rfl
    · split
      · rfl
      · split
        · rfl
        · rfl
  · intro s n hu
    simp [authStep, hu]

/-- Witness for C4's amended theorem: a Cognito-user state with one
pending timer; a successful Cognito refresh at time 0 with expiry 3600s
reschedules to fire at 3300000 ms, and sign-out clears the timer. -/
theorem auth_timer_discipline_witness :
    (authStep ⟨some 0, [(0, 500)], 1, some ⟨"i", "a", "r"⟩, true⟩
        (.cognitoRefreshSuccess 3600 0 ⟨"i2", "a2", "r"⟩)).pending
      = [(1, 0 + max (3600 * 1000 - 0 - 5 * 60 * 1000) 0)] ∧
    (authStep ⟨some 0, [(0, 500)], 1, some ⟨"i", "a", "r"⟩, true⟩
        (.signOutEvent 7)).pending = [] :=
  ⟨(auth_timer_discipline.2.1 ⟨some 0, [(0, 500)], 1, some ⟨"i", "a", "r"⟩, true⟩
      3600 0 ⟨"i2", "a2", "r"⟩ (Or.inr ⟨0, 500, rfl, rfl⟩) rfl),
   (auth_timer_discipline.2.2.1 ⟨some 0, [(0, 500)], 1, some ⟨"i", "a", "r"⟩, true⟩
      7 (Or.inr ⟨0, 500, rfl, rfl⟩) rfl)⟩

/-! ## Claims about ApiService -/

lemma cachedLookup_nil (uc : Bool) (opts : Option ReqOptions)
    (key : String × Option ReqOptions) (now : Int) :
    cachedLookup uc opts [] key now = none := by
  unfold cachedLookup cacheGet
  simp

lemma cacheGet_set_self
    (c : List ((String × Option ReqOptions) × JValue × Int))
    (key : String × Option ReqOptions) (d : JValue) (t : Int) :
    cacheGet (cacheSet c key d t) key = some (d, t) := by
  simp [cacheGet, cacheSet]

lemma cachedLookup_hit (uc : Bool) (opts : Option ReqOptions)
    (cache : List ((String × Option ReqOptions) × JValue × Int))
    (key : String × Option ReqOptions) (now : Int) (data : JValue) (ts : Int)
    (huc : uc = true) (hm : optMethod opts ≠ some "POST")
    (hget : cacheGet cache key = some (data, ts))
    (hfresh : now - ts < CACHE_TTL) :
    cachedLookup uc opts cache key now = some data := by
  simp [cachedLookup, huc, hm, hget, isCacheValid, hfresh]

lemma cachedLookup_stale (uc : Bool) (opts : Option ReqOptions)
    (cache : List ((String × Option ReqOptions) × JValue × Int))
    (key : String × Option ReqOptions) (now : Int) (data : JValue) (ts : Int)
    (hget : cacheGet cache key = some (data, ts))
    (hstale : ¬ (now - ts < CACHE_TTL)) :
    cachedLookup uc opts cache key now = none := by
  unfold cachedLookup
  split
  · simp [hget, isCacheValid, hstale]
  · rfl

lemma one_le_networkCalls_fetchStep (env : ApiEnv)
    (opts : Option ReqOptions) (uc : Bool) (now : Int) (st : ApiState)
    (responses : List FetchOutcome) (key : String × Option ReqOptions)
    (on401 : List FetchOutcome → ReqResult)
    (hmiss : cachedLookup uc opts st.cache key now = none)
    (htok : env.tokenGetter = none ∨ ∃ t, env.tokenGetter = some (.ok t))
    (hon : ∀ rest, 1 ≤ (on401 rest).networkCalls) :
    1 ≤ (fetchStep env opts uc now st responses key on401).networkCalls := by
  rcases htok with h | ⟨t, h⟩ <;>
  · unfold fetchStep
    simp only [hmiss, h, tokenStep]
    rcases responses with _ | ⟨fo, rest⟩
    · simp
    · cases fo with
      | netFailure => simp
      | response status body =>
        by_cases hok : statusOk status = true
        · cases body <;> simp [hok]
        · by_cases h401 : status = 401
          · simpa [hok, h401] using hon rest
          · by_cases h403 : status = 403
            · subst h403
              simp [show statusOk 403 = false by rfl]
            · simp [hok, h401, h403]

lemma one_le_networkCalls_request (env : ApiEnv) (ep : String)
    (opts : Option ReqOptions) (uc : Bool) (now : Int) (st : ApiState)
    (responses : List FetchOutcome)
    (hmiss : cachedLookup uc opts st.cache
        (getCacheKey (env.baseURL ++ ep) opts) now = none)
    (htok : env.tokenGetter = none ∨ ∃ t, env.tokenGetter = some (.ok t)) :
    1 ≤ (request env ep opts uc now st responses).networkCalls := by
  unfold request
  refine one_le_networkCalls_fetchStep env opts uc now st responses _ _
    hmiss htok ?_
  intro rest
  simp only []
  rcases henv : env.refresher with _ | ro
  · simp
  · by_cases hflag : (st.isRefreshing && st.refreshPromise.isSome) = true
    · simp only [hflag, if_true]
      rcases hrp : st.refreshPromise with _ | p
      · simp
      · cases p with
        | ok u =>
          cases hres : (requestRetried env ep opts uc now st rest).result <;>
            simp [hres]
        | error e => simp
    · simp only [hflag]
      cases ro with
      | ok u =>
        cases hres : (requestRetried env ep opts uc now
            { st with isRefreshing := false, refreshPromise := none }
            rest).result <;> simp [hres]
      | error e => simp

lemma requestRetried_401 (env : ApiEnv) (ep : String)
    (opts : Option ReqOptions) (uc : Bool) (now : Int) (st : ApiState)
    (b : Option JValue) (rest : List FetchOutcome)
    (hmiss : cachedLookup uc opts st.cache
        (getCacheKey (env.baseURL ++ ep) opts) now = none)
    (htok : env.tokenGetter = none ∨ ∃ t, env.tokenGetter = some (.ok t)) :
    requestRetried env ep opts uc now st (.response 401 b :: rest) =
      { result := .error "Authentication required. Please sign in again.",
        state := st, responses := rest,
        networkCalls := 1, refreshCalls := 0 } := by
  unfold requestRetried fetchStep
  rcases htok with h | ⟨t, h⟩ <;> simp [hmiss, h, tokenStep, statusOk]

/-- C2: a first 401 with a configured refresher triggers exactly one
refresh and exactly one retry; when the retry also returns 401 the
surfaced error is the session-expired error, and no further refresh or
network call happens (exactly two responses are consumed). -/
theorem request_second_401_session_expired (env : ApiEnv) (endpoint : String)
    (options : Option ReqOptions) (useCache : Bool) (now : Int)
    (b1 b2 : Option JValue) (rest : List FetchOutcome)
    (hrefresh : env.refresher = some (.ok ()))
    (htok : env.tokenGetter = none ∨ ∃ t, env.tokenGetter = some (.ok t)) :
    (request env endpoint options useCache now apiInit
        (.response 401 b1 :: .response 401 b2 :: rest)).result
      = .error "Session expired. Please sign in again." ∧
    (request env endpoint options useCache now apiInit
        (.response 401 b1 :: .response 401 b2 :: rest)).refreshCalls = 1 ∧
    (request env endpoint options useCache now apiInit
        (.response 401 b1 :: .response 401 b2 :: rest)).networkCalls = 2 ∧
    (request env endpoint options useCache now apiInit
        (.response 401 b1 :: .response 401 b2 :: rest)).responses = rest := by
  have hinner := requestRetried_401 env endpoint options useCache now
    { cache := [], isRefreshing := false, refreshPromise := none }
    b2 rest (cachedLookup_nil _ _ _ _) htok
  unfold request fetchStep apiInit
  rcases htok with h | ⟨t, h⟩ <;>
    simp [cachedLookup_nil, h, tokenStep, hrefresh, statusOk, hinner]

/-- Witness for C2. -/
theorem request_second_401_session_expired_witness :
    (request ⟨none, some (.ok ()), "http://x"⟩ "/e" none true 0 apiInit
        [.response 401 none, .response 401 none]).result
      = .error "Session expired. Please sign in again." ∧
    (request ⟨none, some (.ok ()), "http://x"⟩ "/e" none true 0 apiInit
        [.response 401 none, .response 401 none]).refreshCalls = 1 ∧
    (request ⟨none, some (.ok ()), "http://x"⟩ "/e" none true 0 apiInit
        [.response 401 none, .response 401 none]).networkCalls = 2 ∧
    (request ⟨none, some (.ok ()), "http://x"⟩ "/e" none true 0 apiInit
        [.response 401 none, .response 401 none]).responses = [] :=
  request_second_401_session_expired ⟨none, some (.ok ()), "http://x"⟩ "/e"
    none true 0 none none [] rfl (Or.inl rfl)

/-- C3: for a cached-enabled, non-POST request: a successful first
request hits the network once and stores the unwrapped payload at its
time `now1`; a second identical request issued while the entry is less
than 30 seconds old returns the cached payload with no network call; a
request issued once the entry is 30 seconds old or older hits the
network again. -/
theorem request_cache_30s (env : ApiEnv) (endpoint : String)
    (options : Option ReqOptions) (now1 now2 : Int) (st : ApiState)
    (status : Nat) (body : JValue) (rest : List FetchOutcome)
    (hmethod : optMethod options ≠ some "POST")
    (hmiss : cacheGet st.cache
        (getCacheKey (env.baseURL ++ endpoint) options) = none)
    (htok : env.tokenGetter = none ∨ ∃ t, env.tokenGetter = some (.ok t))
    (hok : statusOk status = true) :
    ((request env endpoint options true now1 st
        (.response status (some body) :: rest)).result
          = .ok (unwrapEnvelope body) ∧
     (request env endpoint options true now1 st
        (.response status (some body) :: rest)).networkCalls = 1) ∧
    (now2 - now1 < CACHE_TTL →
      (request env endpoint options true now2
        (request env endpoint options true now1 st
          (.response status (some body) :: rest)).state rest).result
            = .ok (unwrapEnvelope body) ∧
      (request env endpoint options true now2
        (request env endpoint options true now1 st
          (.response status (some body) :: rest)).state rest).networkCalls
            = 0) ∧
    (CACHE_TTL ≤ now2 - now1 →
      1 ≤ (request env endpoint options true now2
        (request env endpoint options true now1 st
          (.response status (some body) :: rest)).state rest).networkCalls) := by
  have h1 : request env endpoint options true now1 st
      (.response status (some body) :: rest) =
      { result := .ok (unwrapEnvelope body),
        state := { st with cache := (cacheSet st.cache
            (getCacheKey (env.baseURL ++ endpoint) options)
            (unwrapEnvelope body) now1) },
        responses := rest, networkCalls := 1, refreshCalls := 0 } := by
    unfold request fetchStep
    rcases htok with h | ⟨t, h⟩ <;>
      simp [cachedLookup, hmiss, h, tokenStep, hok, hmethod]
  refine ⟨⟨by rw [h1], by rw [h1]⟩, ?_, ?_⟩
  · intro hfresh
    have hhit : cachedLookup true options
        (cacheSet st.cache (getCacheKey (env.baseURL ++ endpoint) options)
          (unwrapEnvelope body) now1)
        (getCacheKey (env.baseURL ++ endpoint) options) now2
          = some (unwrapEnvelope body) :=
      cachedLookup_hit _ _ _ _ _ _ _ rfl hmethod
        (cacheGet_set_self _ _ _ _) hfresh
    rw [h1]
    constructor <;> (unfold request fetchStep; simp [hhit])
  · intro hstale
    rw [h1]
    exact one_le_networkCalls_request env endpoint options true now2 _ rest
      (cachedLookup_stale _ _ _ _ _ _ _ (cacheGet_set_self _ _ _ _)
        (not_lt.mpr hstale)) htok

/-- Witness for C3: a fresh repeat at t=10 after a success at t=0 is a
cache hit with no network call, and a repeat at t=30000 is not. -/
theorem request_cache_30s_witness :
    ((request ⟨none, none, "u"⟩ "/e" none true 10
        (request ⟨none, none, "u"⟩ "/e" none true 0 apiInit
          [.response 200 (some .jnull)]).state []).networkCalls = 0) ∧
    (1 ≤ (request ⟨none, none, "u"⟩ "/e" none true 30000
        (request ⟨none, none, "u"⟩ "/e" none true 0 apiInit
          [.response 200 (some .jnull)]).state []).networkCalls) :=
  ⟨((request_cache_30s ⟨none, none, "u"⟩ "/e" none 0 10 apiInit 200 .jnull []
      (by decide) rfl (Or.inl rfl) (by decide)).2.1
      (by norm_num [CACHE_TTL])).2,
   (request_cache_30s ⟨none, none, "u"⟩ "/e" none 0 30000 apiInit 200 .jnull []
      (by decide) rfl (Or.inl rfl) (by decide)).2.2
      (by norm_num [CACHE_TTL])⟩

/-- C1 (evidence of a code bug): with the spec's exact backend
response — HTTP 200 and body
`{status: "success", data: [{name: "us-east-1"}, {name: "us-west-2"}]}`
— `fetchRegions` returns `[]`, not the region names: `request` already
unwraps the `{status, data}` envelope (`responseData.data ||
responseData`), so the value `fetchRegions` dispatches on is the bare
array, whose `.status` is undefined and whose `.active_regions` is
undefined. -/
theorem fetchRegions_spec_example_returns_empty :
    (fetchRegions ⟨none, none, "http://api"⟩ "123456789012" 0 apiInit
      [.response 200 (some (.jobj
        [("status", .jstr "success"),
         ("data", .jarr [.jobj [("name", .jstr "us-east-1")],
                         .jobj [("name", .jstr "us-west-2")]])]))]).1
      = .ok [] ∧
    (fetchRegions ⟨none, none, "http://api"⟩ "123456789012" 0 apiInit
      [.response 200 (some (.jobj
        [("status", .jstr "success"),
         ("data", .jarr [.jobj [("name", .jstr "us-east-1")],
                         .jobj [("name", .jstr "us-west-2")]])]))]).1
      ≠ .ok [.jstr "us-east-1", .jstr "us-west-2"] := by
  constructor
  · rfl
  · intro h
    rw [show (fetchRegions ⟨none, none, "http://api"⟩ "123456789012" 0 apiInit
      [.response 200 (some (.jobj
        [("status", .jstr "success"),
         ("data", .jarr [.jobj [("name", .jstr "us-east-1")],
                         .jobj [("name", .jstr "us-west-2")]])]))]).1
      = .ok [] from rfl] at h
    simp at h

/-! ## Claim about refresh de-duplication -/

/-- C5: when a second caller enters the refresh block while the first
caller's refresh is in flight, exactly one refresh network call has
been made: the second caller takes the `isRefreshing && refreshPromise`
branch and awaits the shared promise instead of starting its own
refresh. -/
theorem concurrent_401_single_refresh (first second : Caller)
    (hne : first ≠ second) :
    (refreshStep (refreshStep refreshInit (.enter first))
        (.enter second)).refreshNetworkCalls = 1 ∧
    phaseOf (refreshStep (refreshStep refreshInit (.enter first))
        (.enter second)) second = .waitingShared ∧
    phaseOf (refreshStep (refreshStep refreshInit (.enter first))
        (.enter second)) first = .owner := by
  cases first <;> cases second <;>
    simp_all [refreshStep, refreshInit, phaseOf, setPhase]

/-- Witness for C5. -/
theorem concurrent_401_single_refresh_witness :
    (refreshStep (refreshStep refreshInit (.enter .a))
        (.enter .b)).refreshNetworkCalls = 1 ∧
    phaseOf (refreshStep (refreshStep refreshInit (.enter .a))
        (.enter .b)) .b = .waitingShared ∧
    phaseOf (refreshStep (refreshStep refreshInit (.enter .a))
        (.enter .b)) .a = .owner :=
  concurrent_401_single_refresh .a .b (by decide)

end CloudReport
